import Mathlib

/-!
Shallow embedding of the resilient HTTP content-retrieval subsystem of the
`utilities` repository (`webcrawl/crawl_utilities.py`): the `Crawler` class's
fetch-with-fallback protocol (`response`), allow-list-validated attribute
extraction (`get` / `_get` / `_check_valid_get`), the append-only error log
(`_push_error`), and the error-log export (`Crawler._write_errors` / `Crawler.write_errors`),
together with the URL scheme-flip transformation (`flip_scheme`).

Conventions of the embedding:
- machine side effects (wall-clock timestamps, the logging sink, the actual
  file writes of the export) are dropped or reified: the `time` field of an
  error record is omitted, log-sink messages are ignored (the spec says
  logging never affects return values), and the export's side effect is
  reified as the chosen serialization format;
- the transport layer (`requests_html.HTMLSession.get`) is an oracle
  parameter `t : Transport` classifying each attempt as raising an
  exception, returning `None`, or returning a response object;
- URLs handled by the fetch protocol appear in their parsed (`furl`) form
  as the structure `Url`; `renderUrl` is the serialization back to a string;
- Python truthiness is embedded explicitly where the source relies on it
  (`headers or self.headers`, `if f_val[1]:`, etc.);
- recursion in attribute extraction is fuel-indexed; a `none` result of the
  fuel-indexed functions means the computation did not finish within the
  given fuel, and divergence is expressed as exhausting every fuel bound.
-/

/-- Exception-like values that flow into the error log: Python
`AssertionError`, `TypeError`, transport-level exceptions raised by
`session.get`, and plain strings pushed directly (such as
`'NULL attribute'`, `'Response is NULL'`, or a response's `reason`). -/
inductive ExcVal where
  | assertionError (msg : String)
  | typeError (msg : String)
  | transport (msg : String)
  | strMsg (msg : String)
deriving DecidableEq

/-- One record of the crawler's error log (source: `Crawler._push_error`,
which appends `{'time', 'company_profile_id', 'attribute', 'url',
'exception'}`).  The wall-clock `time` field is omitted from the embedding. -/
structure ErrorRecord where
  company_profile_id : Option String
  attribute' : Option String
  url : Option String
  exception : ExcVal
deriving DecidableEq

/-- Source: `Crawler._push_error(error, url, comp_id=None, attr=None)`.
Appends one record to `self._err_recs`; the log-sink messages it also emits
are not modelled.  (`str(comp_id) if comp_id else comp_id` is the identity
on our `Option String` model of `comp_id`.) -/
def Crawler._push_error (log : List ErrorRecord) (error : ExcVal) (url : Option String)
    (comp_id : Option String) (attr : Option String) : List ErrorRecord :=
  log ++ [{ company_profile_id := comp_id, attribute' := attr,
            url := url, exception := error }]

/-- Modelled from the spec: the decorator `error_trap` lives in
`utilities.decorators`, a module of this repository that is not under
`src/`.  Per the spec's design notes it turns a fallible operation into one
returning "a `(value, failure)` pair", making the "swallow and record"
policy explicit: a raised exception becomes `(None, exc)`, a normal return
`v` becomes `(v, None)` (corroborated by every call site:
`con, err = _connect(...)`, `f_val, err = self.Crawler._get_response(...)`). -/
def error_trap {α : Type} (body : Except ExcVal α) : Option α × Option ExcVal :=
  match body with
  | .ok v => (some v, none)
  | .error e => (none, some e)

/-- Instance configuration of a `Crawler` (source: `Crawler.__init__`):
default headers, default timeout, and the two attribute allow-lists.
Headers are a string-to-string mapping, modelled as an association list. -/
structure Config where
  headers : List (String × String)
  timeout : Nat
  resp_attributes : List String
  elem_attributes : List String

/-- Default allow-list for `requests_html.HTMLResponse` objects
(source: `Crawler.__init__`, kwarg `resp_attributes`). -/
def defaultRespAttributes : List String :=
  ["content", "encoding", "headers", "history", "html", "json", "ok",
   "reason", "status_code", "text", "url"]

/-- Default allow-list for `requests_html.HTML` and `requests_html.Element`
objects (source: `Crawler.__init__`, kwarg `elem_attributes`). -/
def defaultElemAttributes : List String :=
  ["absolute_links", "base_url", "encoding", "full_text", "html", "links",
   "raw_html", "text", "url"]

/-- Runtime type of an object handed to `Crawler.get`: the three recognized
`requests_html` classes, or any other Python type (`other`). -/
inductive ObjKind where
  | htmlResponse
  | html
  | element
  | other (tyName : String)
deriving DecidableEq

/-- An object handed to `Crawler.get`: its runtime type together with its
attributes.  `attrs a` is the value of `getattr(obj, a)` (for `'json'`, the
value produced by invoking the callable accessor); `none` is Python `None`.
Attribute access is total in the embedding. -/
structure Obj where
  kind : ObjKind
  attrs : String → Option String

/-- Assertion message of `Crawler._check_valid_get` for an allow-list miss. -/
def allowListMsg (attrs : List String) : String :=
  "Second parameter must be one of: " ++ String.intercalate ", " attrs

/-- TypeError message of `Crawler._check_valid_get` for an unrecognized kind. -/
def typeMismatchMsg : String :=
  "First parameter must be one of type requests_html.HTMLResponse, " ++
  "requests_html.HTML, or requests_html.Element"

/-- Source: `Crawler._check_valid_get(obj, a)` (before its `error_trap`
wrapper): dispatch on `type(obj)`; assert membership of `a` in the matching
allow-list; raise `TypeError` for any other type. -/
def Crawler._check_valid_get (cfg : Config) (obj : Obj) (a : String) : Except ExcVal Unit :=
  match obj.kind with
  | .htmlResponse =>
      if a ∈ cfg.resp_attributes then .ok ()
      else .error (.assertionError (allowListMsg cfg.resp_attributes))
  | .html =>
      if a ∈ cfg.elem_attributes then .ok ()
      else .error (.assertionError (allowListMsg cfg.elem_attributes))
  | .element =>
      if a ∈ cfg.elem_attributes then .ok ()
      else .error (.assertionError (allowListMsg cfg.elem_attributes))
  | .other _ => .error (.typeError typeMismatchMsg)

/-- The allow-list `Crawler._check_valid_get` consults for a kind, `none`
for an unrecognized kind. -/
def kindAllowList (cfg : Config) (k : ObjKind) : Option (List String) :=
  match k with
  | .htmlResponse => some cfg.resp_attributes
  | .html => some cfg.elem_attributes
  | .element => some cfg.elem_attributes
  | .other _ => none

/-- Source: `Crawler._get(obj, a)` (lines 152-167), fuel-indexed.  The outer
`Option` is the fuel monad: `none` means the computation did not finish
within `fuel` steps.  The body:
1. run `_check_valid_get` under its `error_trap`;
2. on an `AssertionError`, look up `u = self.get(obj, 'url')` (note: with no
   `a != 'url'` guard in this branch), push the error with `attr=a`, return
   `None`;
3. on any other trapped error (the `TypeError` of an unrecognized kind),
   push it with `u = None` and return `None`;
4. otherwise read the attribute; if it is `None`, look up
   `u = self.get(obj, 'url') if a != 'url' else None`, push
   `'NULL attribute'`, and still return the attribute value.
The recursive `self.get(obj, 'url')` calls are inlined as `_get` at the
remaining fuel: `get` passes `_get`'s value through unchanged (see `get`
below for why its error branch is unreachable), so only the fuel
bookkeeping — a modeling artifact with no counterpart in the source — is
affected by the inlining. -/
def Crawler._get : Nat → Config → Obj → String → List ErrorRecord →
    Option (Option String × List ErrorRecord)
  | 0, _, _, _, _ => none
  | fuel + 1, cfg, obj, a, log =>
    match error_trap (Crawler._check_valid_get cfg obj a) with
    | (_, some err) =>
      match err with
      | .assertionError m =>
        match Crawler._get fuel cfg obj "url" log with
        | none => none
        | some (u, log1) =>
          some (none, Crawler._push_error log1 (.assertionError m) u none (some a))
      | e =>
        some (none, Crawler._push_error log e none none (some a))
    | (_, none) =>
      match obj.attrs a with
      | none =>
        if a = "url" then
          some (none, Crawler._push_error log (.strMsg "NULL attribute") none none (some a))
        else
          match Crawler._get fuel cfg obj "url" log with
          | none => none
          | some (u, log1) =>
            some (none, Crawler._push_error log1 (.strMsg "NULL attribute") u none (some a))
      | some v => some (some v, log)

/-- Source: `Crawler.get(obj, a)` (lines 169-176).  `attr, err =
self._get(obj, a)`; since `_get` is wrapped by `error_trap` and its body
raises no exception in this embedding (attribute access and `_push_error`
are total), the trapped pair is always `(attr, None)`, the `if err:` branch
of `get` (source lines 171-175) is unreachable, and `get` reduces to a
fuel-consuming pass-through of `_get`'s value. -/
def Crawler.get (fuel : Nat) (cfg : Config) (obj : Obj) (a : String)
    (log : List ErrorRecord) : Option (Option String × List ErrorRecord) :=
  match fuel with
  | 0 => none
  | f + 1 =>
    match Crawler._get f cfg obj a log with
    | none => none
    | some (attr, log1) => some (attr, log1)

/-- A URL in its parsed form: the view `furl(url)` takes of the url string
inside `flip_scheme` (source lines 110-113). -/
structure Url where
  scheme : Option String
  host : String
  port : Option Nat
  path : String
  query : String
deriving DecidableEq

/-- Source: the inner function `flip_scheme` of `Crawler.response`
(lines 110-113): `u.scheme = 'https' if u.scheme == 'http' else 'http'`;
all other components of the parsed URL are left untouched. -/
def flip_scheme (u : Url) : Url :=
  { u with scheme := if u.scheme = some "http" then some "https" else some "http" }

/-- Serialization of a parsed URL back to the url string (`furl(...).url`). -/
def renderUrl (u : Url) : String :=
  (match u.scheme with | some s => s ++ "://" | none => "") ++ u.host ++
    (match u.port with | some p => ":" ++ toString p | none => "") ++
    u.path ++ (if u.query = "" then "" else "?" ++ u.query)

/-- Outcome of one transport-level attempt (`self.session.get(url, ...)`). -/
structure Resp where
  ok : Bool
  reason : String
  url : String
  status_code : Nat
deriving DecidableEq

/-- The transport oracle: what `session.get` does for a given url string,
effective headers and effective timeout — raise an exception, return
`None`, or return a response object. -/
inductive TransportResult where
  | raises (e : String)
  | nullResp
  | resp (r : Resp)

/-- The type of transport oracles. -/
def Transport := String → List (String × String) → Nat → TransportResult

/-- Source: `Crawler._get_response(url, headers, timeout, cookies)`
(lines 82-103) together with its `error_trap` wrapper, as the `(value,
failure)` pair it hands back: a raised transport exception becomes the
failure component; otherwise the value is the triple `(r, r.reason if not
r.ok else None, returned url)` — `(None, None, url)` when the call returned
`None`.  The informational/warning log messages are not modelled. -/
def Crawler._get_response (t : Transport) (url : String)
    (headers : List (String × String)) (timeout : Nat) :
    Except String (Option Resp × Option String × String) :=
  match t url headers timeout with
  | .raises e => .error e
  | .nullResp => .ok (none, none, url)
  | .resp r =>
    if r.ok then .ok (some r, none, r.url)
    else .ok (some r, some r.reason, r.url)

/-- Python truthiness of an optional string: `None` and `''` are falsy. -/
def truthyOptStr : Option String → Bool
  | none => false
  | some s => s != ""

/-- Source: `headers = headers or self.headers` (line 107).  Python `or`
tests truthiness: `None` and the empty mapping both fall back to the
instance default. -/
def orDefaultHeaders (h : Option (List (String × String)))
    (dflt : List (String × String)) : List (String × String) :=
  match h with
  | none => dflt
  | some hs => if hs = [] then dflt else hs

/-- Source: `timeout = timeout or self.timeout` (line 108).  Python `or`
tests truthiness: `None` and `0` both fall back to the instance default. -/
def orDefaultTimeout (t : Option Nat) (dflt : Nat) : Nat :=
  match t with
  | none => dflt
  | some n => if n = 0 then dflt else n

/-- The retry block of `Crawler.response` (source lines 117-129): one
attempt against the scheme-flipped URL.  On a trapped transport exception,
push it (url = flipped url, no attribute) and return `None`; otherwise push
`'Response is NULL'` if the result is `None`, push the reason if it is
truthy, and return the result object.  The last component of the result
lists the url strings the transport was asked for (for this block, just the
flipped url; `response` prepends the primary attempt). -/
def Crawler.responseRetry (t : Transport) (url : Url) (h : List (String × String))
    (tmo : Nat) (c_id : Option String) (log : List ErrorRecord) :
    Option Resp × List ErrorRecord × List String :=
  let flipped := renderUrl (flip_scheme url)
  match Crawler._get_response t flipped h tmo with
  | .error e =>
    (none, Crawler._push_error log (.transport e) (some flipped) c_id none, [flipped])
  | .ok fv =>
    let log1 := if fv.1.isNone then
        Crawler._push_error log (.strMsg "Response is NULL") (some flipped) c_id none
      else log
    let log2 := match fv.2.1 with
      | some s => if s != "" then
          Crawler._push_error log1 (.strMsg s) (some flipped) c_id none
        else log1
      | none => log1
    (fv.1, log2, [flipped])

/-- Source: `Crawler.response(url, headers=None, timeout=None, cookies=None,
c_id=None)` (lines 105-131).  Resolve effective headers/timeout by Python
truthiness, attempt the primary url; if the trapped attempt failed
(`err or f_val[1] or f_val[0] is None` — note `f_val[1]`, the reason, is
tested for truthiness, so an empty reason does not trigger a retry), run
the retry block against the scheme-flipped url; otherwise return the result
object.  Beyond the source, the result carries the final error log and the
list of url strings attempted, in order. -/
def Crawler.response (t : Transport) (cfg : Config) (url : Url)
    (headers : Option (List (String × String))) (timeout : Option Nat)
    (c_id : Option String) (log : List ErrorRecord) :
    Option Resp × List ErrorRecord × List String :=
  let h := orDefaultHeaders headers cfg.headers
  let tmo := orDefaultTimeout timeout cfg.timeout
  let urlStr := renderUrl url
  match Crawler._get_response t urlStr h tmo with
  | .error _ =>
    let r := Crawler.responseRetry t url h tmo c_id log
    (r.1, r.2.1, urlStr :: r.2.2)
  | .ok fv =>
    if truthyOptStr fv.2.1 || fv.1.isNone then
      let r := Crawler.responseRetry t url h tmo c_id log
      (r.1, r.2.1, urlStr :: r.2.2)
    else (fv.1, log, [urlStr])

/-- The extension Python's `outfile.split('.')[-1]` extracts: the suffix of
the string after its last `'.'`, or the whole string when it has none. -/
def lastExt (s : String) : String :=
  ((s.toList.reverse.takeWhile (fun c => c != '.')).reverse).asString

/-- Serialization format the export chooses (reifying the side effect of
`to_pickle` / `to_excel` / `to_csv`). -/
inductive ExportFormat where
  | pickle
  | excel
  | csv
deriving DecidableEq

/-- Source: `Crawler._write_errors(outfile)` (lines 178-191) before its
`error_trap` wrapper: `ft = outfile.split('.')[-1]`; assert `ft` is one of
`pkl`, `xlsx`, `csv` (an `AssertionError` otherwise); serialize the error
records in the matching format; return `outfile`.  The value is the pair
(chosen format, returned path); the in-memory log is not touched. -/
def Crawler._write_errors (outfile : String) : Except ExcVal (ExportFormat × String) :=
  let ft := lastExt outfile
  if ft = "pkl" then .ok (.pickle, outfile)
  else if ft = "xlsx" then .ok (.excel, outfile)
  else if ft = "csv" then .ok (.csv, outfile)
  else .error (.assertionError ("Output filename must specify a pickle " ++
    "(.pkl), excel (.xlsx) or csv (.csv) file."))

/-- Source: `Crawler.write_errors(out_fn)` (lines 193-199): `outfile, err =
self.Crawler._write_errors(out_fn)`; on failure only a log message is emitted and
the (then `None`) outfile is returned unchanged. -/
def Crawler.write_errors (out_fn : String) : Option (ExportFormat × String) :=
  match error_trap (Crawler._write_errors out_fn) with
  | (v, _) => v

/-- The retry-trigger condition of `Crawler.response` (source line 116,
`if err or f_val[1] or f_val[0] is None:`) on the trapped result of
`_get_response`: a trapped exception, a truthy reason, or a `None` result. -/
def retryNeeded : Except String (Option Resp × Option String × String) → Bool
  | .error _ => true
  | .ok fv => truthyOptStr fv.2.1 || fv.1.isNone

/-- A concrete crawler configuration carrying the default allow-lists (the
`headers` mapping and `timeout` are the constructor defaults' shape; their
exact values are irrelevant to the attribute-extraction claims). -/
def defaultConfig : Config :=
  ⟨[("user_agent", "agent")], 10, defaultRespAttributes, defaultElemAttributes⟩

/-- A concrete `HTMLResponse`-kind object whose `url` attribute is set and
whose other attributes are `None`. -/
def sampleObj : Obj :=
  ⟨.htmlResponse, fun a => if a = "url" then some "http://e.com" else none⟩

/-- A concrete `HTMLResponse`-kind object all of whose attributes are `None`
(in particular its `url`). -/
def nullObj : Obj := ⟨.htmlResponse, fun _ => none⟩

/-- A concrete `HTMLResponse`-kind object whose `text` attribute is the
empty string (present but empty) and whose `url` attribute is set. -/
def emptyValObj : Obj :=
  ⟨.htmlResponse, fun a =>
    if a = "text" then some ""
    else if a = "url" then some "http://e.com" else none⟩

/-- The parsed form of the url string `"http://example.com"`. -/
def exampleUrl : Url := ⟨some "http", "example.com", none, "", ""⟩

/-- A transport oracle for which every attempt succeeds with status `200 OK`. -/
def alwaysOkTransport : Transport := fun u _ _ => .resp ⟨true, "OK", u, 200⟩

/-- A transport oracle for which every attempt raises. -/
def bothFailTransport : Transport := fun u _ _ => .raises ("boom " ++ u)

/-- A transport oracle: the plain-HTTP attempt raises; any other attempt
returns a not-OK response whose reason phrase is empty. -/
def emptyReasonTransport : Transport := fun u _ _ =>
  if u = "http://example.com" then .raises "boom" else .resp ⟨false, "", u, 500⟩

/-- A transport oracle: the plain-HTTP attempt raises; any other attempt
returns a `404` response with reason `"NOT FOUND"`. -/
def notFoundTransport : Transport := fun u _ _ =>
  if u = "http://example.com" then .raises "boom"
  else .resp ⟨false, "NOT FOUND", u, 404⟩

/-- Validation succeeds exactly when the attribute is in the allow-list the
kind dispatches to. -/
theorem check_ok_of_mem (cfg : Config) (obj : Obj) (al : List String) (a : String)
    (hal : kindAllowList cfg obj.kind = some al) (hmem : a ∈ al) :
    Crawler._check_valid_get cfg obj a = .ok () := by
  cases hk : obj.kind <;> simp [kindAllowList, hk] at hal <;>
    simp [Crawler._check_valid_get, hk, hal, hmem]

/-- Validation fails with the allow-list assertion exactly when the
attribute is missing from the allow-list the kind dispatches to. -/
theorem check_err_of_not_mem (cfg : Config) (obj : Obj) (al : List String) (a : String)
    (hal : kindAllowList cfg obj.kind = some al) (hmem : a ∉ al) :
    Crawler._check_valid_get cfg obj a = .error (.assertionError (allowListMsg al)) := by
  cases hk : obj.kind <;> simp [kindAllowList, hk] at hal <;>
    simp [Crawler._check_valid_get, hk, hal, hmem]

/-- When `url` is not in the kind's allow-list, `_get obj "url"` exhausts
any fuel bound: the validation-failure branch of `_get` re-enters
`get(obj, 'url')` with no guard for `a == 'url'` (source line 157), so the
lookup never finishes. -/
theorem _get_url_diverges (cfg : Config) (obj : Obj) (al : List String)
    (hal : kindAllowList cfg obj.kind = some al) (hurl : "url" ∉ al) :
    ∀ (n : Nat) (log : List ErrorRecord), Crawler._get n cfg obj "url" log = none := by
  have hc := check_err_of_not_mem cfg obj al "url" hal hurl
  intro n
  induction n with
  | zero => intro log; rfl
  | succ m ih =>
    intro log
    simp [Crawler._get, hc, error_trap, ih]

/-- C1: the claim states that `get(result, "url")` always terminates, the
recursive url lookup of validation-failure recovery never re-entering that
recovery, for every configured allow-list.  The code violates this: when
the result's kind has an allow-list that does not contain `"url"`, the
validation-failure branch of `_get` calls `self.get(obj, 'url')` with no
`a != 'url'` guard (the guard exists only in the null-attribute branch),
so `get(obj, "url")` recurses forever — it exhausts every fuel bound. -/
theorem get_url_no_allowlist_entry_diverges (cfg : Config) (obj : Obj)
    (al : List String) (hal : kindAllowList cfg obj.kind = some al)
    (hurl : "url" ∉ al) (fuel : Nat) (log : List ErrorRecord) :
    Crawler.get fuel cfg obj "url" log = none := by
  cases fuel with
  | zero => rfl
  | succ f => simp [Crawler.get, _get_url_diverges cfg obj al hal hurl f log]

/-- Witness for C1: a crawler configured with `resp_attributes=['content']`
diverges on `get(obj, 'url')` for an `HTMLResponse`-kind object. -/
theorem get_url_no_allowlist_entry_diverges_witness :
    kindAllowList ⟨[], 10, ["content"], ["text"]⟩ ObjKind.htmlResponse = some ["content"]
    ∧ "url" ∉ ["content"]
    ∧ Crawler.get 50 ⟨[], 10, ["content"], ["text"]⟩ sampleObj "url" [] = none :=
  ⟨rfl, by decide,
   get_url_no_allowlist_entry_diverges ⟨[], 10, ["content"], ["text"]⟩ sampleObj
     ["content"] rfl (by decide) 50 []⟩

/-- C2 counterexample: the claim states that `get` on an object of
unrecognized kind raises (propagates) the type error to the caller "rather
than swallowing it into the ErrorLog and returning none".  At the concrete
input below, `get` instead completes normally: it returns `None` and the
ErrorLog has gained exactly the type-error record (with no url) — the
`error_trap` around `_check_valid_get` catches the `TypeError` and `_get`'s
`else: u = None` branch (source lines 158-161) pushes it. -/
theorem get_unknown_kind_swallows_type_error_cex :
    Crawler.get 10 defaultConfig ⟨.other "int", fun _ => none⟩ "url" []
      = some (none, [⟨none, some "url", none, .typeError typeMismatchMsg⟩]) := by
  rfl

/-- C2 amended: for every object whose kind is not one of the recognized
result kinds and every attribute name, `get` returns `None` and appends
exactly one ErrorRecord carrying the type error (with url `None`),
swallowing the structural failure into the ErrorLog instead of propagating
it. -/
theorem get_unknown_kind_returns_none_and_logs (cfg : Config) (s : String)
    (f : String → Option String) (a : String) (log : List ErrorRecord)
    (fuel : Nat) :
    Crawler.get (fuel + 2) cfg ⟨.other s, f⟩ a log
      = some (none, log ++ [⟨none, some a, none, .typeError typeMismatchMsg⟩]) := by
  simp [Crawler.get, Crawler._get, Crawler._check_valid_get, error_trap, Crawler._push_error]

/-- C8 counterexample: the claim states that `get` on an attribute outside
a known kind's allow-list appends exactly one ErrorRecord.  For a result
whose `url` attribute is `None`, the recovery lookup `get(obj, 'url')`
itself pushes a `'NULL attribute'` record before the allow-list-miss record
is pushed, so the log gains two records, not one. -/
theorem get_unknown_attribute_null_url_two_records_cex :
    Crawler.get 10 defaultConfig nullObj "bogus" []
      = some (none,
          [⟨none, some "url", none, .strMsg "NULL attribute"⟩,
           ⟨none, some "bogus", none,
            .assertionError (allowListMsg defaultRespAttributes)⟩]) := by
  rfl

/-- C8 amended: for every result of a known kind and every attribute name
not in that kind's allow-list, provided the allow-list contains `url` and
the result's `url` attribute is non-null (so that the recovery lookup
itself neither diverges nor logs), `get` returns `none` and appends exactly
one ErrorRecord whose attribute field equals the requested name (and whose
url field is the looked-up url). -/
theorem get_unknown_attribute_appends_one_record (cfg : Config) (obj : Obj)
    (al : List String) (a : String) (u0 : String) (log : List ErrorRecord)
    (fuel : Nat) (hal : kindAllowList cfg obj.kind = some al) (ha : a ∉ al)
    (hurl : "url" ∈ al) (hu : obj.attrs "url" = some u0) :
    Crawler.get (fuel + 3) cfg obj a log
      = some (none,
          log ++ [⟨none, some a, some u0, .assertionError (allowListMsg al)⟩]) := by
  have hc := check_err_of_not_mem cfg obj al a hal ha
  have hcu := check_ok_of_mem cfg obj al "url" hal hurl
  simp [Crawler.get, Crawler._get, hc, hcu, hu, error_trap, Crawler._push_error]

/-- Witness for C8 (amended): `get(response, 'bogus')` on an
`HTMLResponse`-kind object whose url is set appends exactly the one
allow-list-miss record. -/
theorem get_unknown_attribute_appends_one_record_witness :
    Crawler.get 10 defaultConfig sampleObj "bogus" []
      = some (none,
          [⟨none, some "bogus", some "http://e.com",
            .assertionError (allowListMsg defaultRespAttributes)⟩]) := by
  have h := get_unknown_attribute_appends_one_record defaultConfig sampleObj
      defaultRespAttributes "bogus" "http://e.com" [] 7 rfl (by decide)
      (by decide) rfl
  simpa using h

/-- C9 counterexample: the claim states that whenever an allowed
attribute's accessor yields an absent/empty value, `get` records a
`'NULL attribute'` ErrorRecord (with a best-effort URL) and still returns
that value.  The code tests `attr is None` only (source line 164): at the
concrete input below the `text` attribute is the empty string — present
but empty — and `get` returns it with the ErrorLog left untouched, nothing
recorded.  (The claim's quantifiers also cover allow-lists without `url`,
where the recovery lookup of line 165 diverges through line 157's
unguarded recursion — see C1.) -/
theorem get_empty_value_unrecorded_cex :
    Crawler.get 10 defaultConfig emptyValObj "text" [] = some (some "", []) := by
  rfl

/-- C9 amended: for a known kind and an allowed attribute other than `url`
whose accessor yields Python `None`, provided the kind's allow-list
contains `url` and the result's `url` attribute is non-null (so the
best-effort url lookup neither diverges nor logs on its own), `get`
records one `'NULL attribute'` ErrorRecord carrying that url and still
returns the absent value (`none`) to the caller — absence is logged, not
suppressed; an empty-but-present value is returned with nothing recorded. -/
theorem get_null_attribute_logged_and_returned (cfg : Config) (obj : Obj)
    (al : List String) (a : String) (u0 : String) (log : List ErrorRecord)
    (fuel : Nat) (hal : kindAllowList cfg obj.kind = some al) (ha : a ∈ al)
    (hne : a ≠ "url") (hattr : obj.attrs a = none)
    (hurl : "url" ∈ al) (hu : obj.attrs "url" = some u0) :
    Crawler.get (fuel + 3) cfg obj a log
      = some (none, log ++ [⟨none, some a, some u0, .strMsg "NULL attribute"⟩]) := by
  have hc := check_ok_of_mem cfg obj al a hal ha
  have hcu := check_ok_of_mem cfg obj al "url" hal hurl
  simp [Crawler.get, Crawler._get, hc, hcu, hu, error_trap, hattr, hne,
    Crawler._push_error]

/-- Witness for C9 (amended): `get(response, 'text')` where the `text`
attribute is `None` logs one `'NULL attribute'` record carrying the url
and returns the absent value. -/
theorem get_null_attribute_logged_and_returned_witness :
    Crawler.get 10 defaultConfig sampleObj "text" []
      = some (none,
          [⟨none, some "text", some "http://e.com", .strMsg "NULL attribute"⟩]) := by
  have h := get_null_attribute_logged_and_returned defaultConfig sampleObj
      defaultRespAttributes "text" "http://e.com" [] 7 rfl (by decide)
      (by decide) rfl (by decide) rfl
  simpa using h

/-- C6: for every URL whose primary attempt yields `Success` (a response
obtained and marked OK), `fetch` returns that result immediately: exactly
one transport attempt is made (no retry) and the ErrorLog gains zero
records. -/
theorem response_primary_success_no_retry (t : Transport) (cfg : Config)
    (u : Url) (headers : Option (List (String × String)))
    (timeout : Option Nat) (c_id : Option String) (log : List ErrorRecord)
    (r : Resp)
    (ht : t (renderUrl u) (orDefaultHeaders headers cfg.headers)
            (orDefaultTimeout timeout cfg.timeout) = .resp r)
    (hok : r.ok = true) :
    Crawler.response t cfg u headers timeout c_id log
      = (some r, log, [renderUrl u]) := by
  simp [Crawler.response, Crawler._get_response, ht, hok, truthyOptStr]

/-- Witness for C6: an always-OK transport returns the primary response,
untouched log, single attempt. -/
theorem response_primary_success_no_retry_witness :
    Crawler.response alwaysOkTransport defaultConfig exampleUrl none none none []
      = (some ⟨true, "OK", "http://example.com", 200⟩, [], ["http://example.com"]) := by
  have h := response_primary_success_no_retry alwaysOkTransport defaultConfig
      exampleUrl none none none [] ⟨true, "OK", "http://example.com", 200⟩ rfl rfl
  simpa using h

/-- C5: for every URL where both the primary attempt and the scheme-flipped
retry raise at the transport level, `fetch` returns `none` and the ErrorLog
gains exactly one record, whose url field is the scheme-flipped variant of
the original URL and whose attribute field is absent. -/
theorem response_both_transport_failures (t : Transport) (cfg : Config)
    (u : Url) (headers : Option (List (String × String)))
    (timeout : Option Nat) (c_id : Option String) (log : List ErrorRecord)
    (e1 e2 : String)
    (h1 : t (renderUrl u) (orDefaultHeaders headers cfg.headers)
            (orDefaultTimeout timeout cfg.timeout) = .raises e1)
    (h2 : t (renderUrl (flip_scheme u)) (orDefaultHeaders headers cfg.headers)
            (orDefaultTimeout timeout cfg.timeout) = .raises e2) :
    Crawler.response t cfg u headers timeout c_id log
      = (none,
         log ++ [⟨c_id, none, some (renderUrl (flip_scheme u)), .transport e2⟩],
         [renderUrl u, renderUrl (flip_scheme u)]) := by
  simp [Crawler.response, Crawler.responseRetry, Crawler._get_response, h1, h2,
    Crawler._push_error]

/-- Witness for C5: a transport for which every attempt raises yields
`none`, one record with the flipped url and no attribute. -/
theorem response_both_transport_failures_witness :
    Crawler.response bothFailTransport defaultConfig exampleUrl none none
        (some "c1") []
      = (none,
         [⟨some "c1", none, some "https://example.com",
           .transport "boom https://example.com"⟩],
         ["http://example.com", "https://example.com"]) := by
  have h := response_both_transport_failures bothFailTransport defaultConfig
      exampleUrl none none (some "c1") []
      ("boom " ++ renderUrl exampleUrl)
      ("boom " ++ renderUrl (flip_scheme exampleUrl)) rfl rfl
  simpa using h

/-- C7 counterexample: the claim states that whenever the retry yields an
`ApplicationFailure` (a response obtained but marked not-OK), `fetch`
records the retry's failure reason.  The code pushes the reason only when
it is truthy (`if f_val[1]:`, source line 127): at the concrete input below
the retried response has `ok=False` with an empty reason phrase, the
retried result is returned, and the ErrorLog stays empty — nothing is
recorded. -/
theorem response_retry_empty_reason_unrecorded_cex :
    Crawler.response emptyReasonTransport defaultConfig exampleUrl none none
        none []
      = (some ⟨false, "", "https://example.com", 500⟩, [],
         ["http://example.com", "https://example.com"]) := by
  rfl

/-- C7 amended: for every URL where the primary attempt fails (the retry
trigger holds) and the scheme-flipped retry yields a response marked not-OK
whose reason is non-empty, `fetch` records that reason as an ErrorRecord
(url = flipped url, no attribute) and still returns the retried result
object to the caller. -/
theorem response_retry_application_failure_logged_and_returned
    (t : Transport) (cfg : Config) (u : Url)
    (headers : Option (List (String × String))) (timeout : Option Nat)
    (c_id : Option String) (log : List ErrorRecord) (r : Resp)
    (hprim : retryNeeded (Crawler._get_response t (renderUrl u)
        (orDefaultHeaders headers cfg.headers)
        (orDefaultTimeout timeout cfg.timeout)) = true)
    (h2 : t (renderUrl (flip_scheme u)) (orDefaultHeaders headers cfg.headers)
            (orDefaultTimeout timeout cfg.timeout) = .resp r)
    (hok : r.ok = false) (hreason : r.reason ≠ "") :
    Crawler.response t cfg u headers timeout c_id log
      = (some r,
         log ++ [⟨c_id, none, some (renderUrl (flip_scheme u)), .strMsg r.reason⟩],
         [renderUrl u, renderUrl (flip_scheme u)]) := by
  have hretry : Crawler.responseRetry t u (orDefaultHeaders headers cfg.headers)
      (orDefaultTimeout timeout cfg.timeout) c_id log
      = (some r,
         log ++ [⟨c_id, none, some (renderUrl (flip_scheme u)), .strMsg r.reason⟩],
         [renderUrl (flip_scheme u)]) := by
    simp [Crawler.responseRetry, Crawler._get_response, h2, hok, hreason,
      Crawler._push_error]
  cases hp : Crawler._get_response t (renderUrl u)
      (orDefaultHeaders headers cfg.headers)
      (orDefaultTimeout timeout cfg.timeout) with
  | error e => simp [Crawler.response, hp, hretry]
  | ok fv =>
    rw [hp] at hprim
    simp only [retryNeeded, Bool.or_eq_true, Option.isNone_iff_eq_none] at hprim
    rcases hprim with h | h <;> simp [Crawler.response, hp, hretry, h]

/-- Witness for C7 (amended): primary raises, retry is a `404 NOT FOUND`:
the reason is recorded and the retried response returned. -/
theorem response_retry_application_failure_logged_and_returned_witness :
    Crawler.response notFoundTransport defaultConfig exampleUrl none none
        none []
      = (some ⟨false, "NOT FOUND", "https://example.com", 404⟩,
         [⟨none, none, some "https://example.com", .strMsg "NOT FOUND"⟩],
         ["http://example.com", "https://example.com"]) := by
  have h := response_retry_application_failure_logged_and_returned
      notFoundTransport defaultConfig exampleUrl none none none []
      ⟨false, "NOT FOUND", "https://example.com", 404⟩ rfl rfl rfl (by decide)
  simpa using h

/-- C10: supplying a falsy but present override — an empty headers mapping
or a timeout of zero — makes `fetch` silently use the instance defaults:
`headers or self.headers` / `timeout or self.timeout` test truthiness, not
presence, so the call behaves exactly as if no override had been given. -/
theorem response_falsy_overrides_use_defaults (t : Transport) (cfg : Config)
    (u : Url) (c_id : Option String) (log : List ErrorRecord) :
    Crawler.response t cfg u (some []) (some 0) c_id log
        = Crawler.response t cfg u none none c_id log
    ∧ orDefaultHeaders (some []) cfg.headers = cfg.headers
    ∧ orDefaultTimeout (some 0) cfg.timeout = cfg.timeout :=
  ⟨rfl, rfl, rfl⟩

/-- C3 counterexample: the claim states that any extension other than
`.pkl`/`.xlsx` selects delimited text, and that the export returns the
destination path on success.  For the destination `"errors.txt"` the code
instead fails its extension assertion: no serialization happens and the
export operation returns `None`, not the path. -/
theorem write_errors_unsupported_extension_cex :
    Crawler.write_errors "errors.txt" = none
    ∧ Crawler._write_errors "errors.txt"
        = .error (.assertionError ("Output filename must specify a pickle " ++
            "(.pkl), excel (.xlsx) or csv (.csv) file.")) :=
  ⟨rfl, rfl⟩

/-- C3 amended: the export selects the serialization format solely from the
destination path's extension — `.pkl` gives the opaque binary table,
`.xlsx` the spreadsheet, and `.csv` (only) delimited text — returning the
destination path on success; any other extension is a validation failure:
no format is chosen and the export returns `None`. -/
theorem write_errors_format_by_extension (outfile : String) :
    (lastExt outfile = "pkl" →
      Crawler.write_errors outfile = some (.pickle, outfile))
    ∧ (lastExt outfile = "xlsx" →
      Crawler.write_errors outfile = some (.excel, outfile))
    ∧ (lastExt outfile = "csv" →
      Crawler.write_errors outfile = some (.csv, outfile))
    ∧ (lastExt outfile ≠ "pkl" → lastExt outfile ≠ "xlsx" →
       lastExt outfile ≠ "csv" → Crawler.write_errors outfile = none) := by
  refine ⟨fun h => ?_, fun h => ?_, fun h => ?_, fun h1 h2 h3 => ?_⟩ <;>
    simp [Crawler.write_errors, Crawler._write_errors, error_trap, *]

/-- Witness for C3 (amended): each recognized extension chooses its format
and returns the path; an unrecognized destination yields `None`. -/
theorem write_errors_format_by_extension_witness :
    Crawler.write_errors "a.pkl" = some (.pickle, "a.pkl")
    ∧ Crawler.write_errors "a.xlsx" = some (.excel, "a.xlsx")
    ∧ Crawler.write_errors "b.c.csv" = some (.csv, "b.c.csv")
    ∧ Crawler.write_errors "noext" = none :=
  ⟨(write_errors_format_by_extension "a.pkl").1 (by decide),
   (write_errors_format_by_extension "a.xlsx").2.1 (by decide),
   (write_errors_format_by_extension "b.c.csv").2.2.1 (by decide),
   (write_errors_format_by_extension "noext").2.2.2 (by decide) (by decide)
     (by decide)⟩

/-- C4 counterexample: the claim states the scheme-flip is involutive for
every URL.  For a URL whose scheme is neither `http` nor `https` — here
`ftp://a.com` — one flip yields `http`, a second yields `https`, so
flipping twice does not return the original URL. -/
theorem flip_scheme_not_involutive_cex :
    flip_scheme (flip_scheme ⟨some "ftp", "a.com", none, "", ""⟩)
      ≠ (⟨some "ftp", "a.com", none, "", ""⟩ : Url) := by
  decide

/-- C4 amended: for every URL whose scheme is one of the two supported
schemes (`http`/`https`) flipping twice yields the original URL; and for
every URL a single flip changes only the scheme — host, port, path and
query stay identical. -/
theorem flip_scheme_involutive_on_http_https (u : Url) :
    ((u.scheme = some "http" ∨ u.scheme = some "https") →
      flip_scheme (flip_scheme u) = u)
    ∧ (flip_scheme u).host = u.host ∧ (flip_scheme u).port = u.port
    ∧ (flip_scheme u).path = u.path ∧ (flip_scheme u).query = u.query := by
  refine ⟨fun h => ?_, rfl, rfl, rfl, rfl⟩
  obtain ⟨s, host, port, path, query⟩ := u
  rcases h with h | h <;> (simp only at h; subst h; rfl)

/-- Witness for C4 (amended): flipping `http://example.com:8080/p?q=1`
twice returns the original URL. -/
theorem flip_scheme_involutive_on_http_https_witness :
    flip_scheme (flip_scheme ⟨some "http", "example.com", some 8080, "/p", "q=1"⟩)
      = ⟨some "http", "example.com", some 8080, "/p", "q=1"⟩ :=
  (flip_scheme_involutive_on_http_https
    ⟨some "http", "example.com", some 8080, "/p", "q=1"⟩).1 (Or.inl rfl)
